import Mathlib

/-!
Verification of the Level VC Open WebUI tool plugins and Langfuse wrapper.

Shallow embedding of:
  - src/tools/engineer.py   (Tools: read_athena_query, read_rds_query, get_athena_table_info)
  - src/tools/investor.py   (Tools: eleven search / detail operations)
  - src/backend/open_webui/utils/langfuse.py

Both tool files define byte-identical copies of the helpers `_emit_event`,
`_emit_citation` (investor only) and `_make_api_request`; they are embedded
once here.

Modelling conventions:
  - JSON-compatible Python values are `JValue`; Python dicts are association
    lists with unique keys (as produced by JSON parsing).
  - The HTTP transport (requests.get / requests.post, raise_for_status and
    response.json together) is a function `Transport` from the constructed
    request to either a parsed JSON body (2xx) or a `requests.RequestException`
    message (connection error, timeout, non-2xx status).
  - The event sink `__event_emitter__` is `none` (Python None) or a function
    telling, per event, whether the awaited emission succeeds (`true`) or
    raises (`false`); the source swallows the failure either way, so a failed
    emission merely does not deliver its event.
  - Python exceptions that can actually escape are modelled with `PyResult`
    (exception type name and message); everything else returns plain values.
  - Python `str.upper()` is `String.toUpper` (the method arguments and symbols
    in the claims are ASCII, where the two functions agree).
  - Python `repr`/`str` of parsed-JSON values is `pyRepr`/`pyStr`; escaping of
    quotes inside nested strings is not modelled (the claims evaluate it only
    on numbers and plain strings).
-/

/-- A JSON-compatible Python value, as produced by `response.json()`. -/
inductive JValue where
  | str : String → JValue
  | num : Int → JValue
  | bool : Bool → JValue
  | null : JValue
  | arr : List JValue → JValue
  | obj : List (String × JValue) → JValue

/-- First binding of a key in an association list (Python dict access). -/
def getField : List (String × JValue) → String → Option JValue
  | [], _ => none
  | (k, v) :: rest, key => if k = key then some v else getField rest key

/-- Python `d.get(key, default)` for a dict value; the source only applies it
under an `isinstance(result, dict)` guard. -/
def JValue.getD : JValue → String → JValue → JValue
  | JValue.obj fs, key, dflt =>
    match getField fs key with
    | some v => v
    | none => dflt
  | _, _, dflt => dflt

/-- `isinstance(x, dict)`. -/
def JValue.isObj : JValue → Bool
  | JValue.obj _ => true
  | _ => false

/-- `isinstance(x, list)`. -/
def JValue.isArr : JValue → Bool
  | JValue.arr _ => true
  | _ => false

/-- `isinstance(result, dict) and "error" in result` — the error-shaped test
every tool operation branches on. -/
def isErrorDict : JValue → Bool
  | JValue.obj fs => (getField fs "error").isSome
  | _ => false

mutual
/-- Python `repr` of a parsed-JSON value (quote escaping not modelled). -/
def pyRepr : JValue → String
  | JValue.str s => "\x27" ++ s ++ "\x27"
  | JValue.num n => toString n
  | JValue.bool b => if b then "True" else "False"
  | JValue.null => "None"
  | JValue.arr xs => "[" ++ pyReprList xs ++ "]"
  | JValue.obj fs => "\x7b" ++ pyReprFields fs ++ "\x7d"

/-- Comma-separated `repr`s of list elements. -/
def pyReprList : List JValue → String
  | [] => ""
  | [x] => pyRepr x
  | x :: xs => pyRepr x ++ ", " ++ pyReprList xs

/-- Comma-separated `repr`s of dict entries. -/
def pyReprFields : List (String × JValue) → String
  | [] => ""
  | [(k, v)] => "\x27" ++ k ++ "\x27: " ++ pyRepr v
  | (k, v) :: fs => "\x27" ++ k ++ "\x27: " ++ pyRepr v ++ ", " ++ pyReprFields fs
end

/-- Python `str` of a parsed-JSON value, as used by f-string interpolation. -/
def pyStr : JValue → String
  | JValue.str s => s
  | v => pyRepr v

/-- Python `len` on a parsed-JSON value: defined on strings, lists and dicts,
raises `TypeError` on numbers, booleans and `None`. -/
def pyLen : JValue → Except (String × String) Nat
  | JValue.str s => Except.ok s.length
  | JValue.arr xs => Except.ok xs.length
  | JValue.obj fs => Except.ok fs.length
  | JValue.num _ => Except.error ("TypeError", "object of type \x27int\x27 has no len()")
  | JValue.bool _ => Except.error ("TypeError", "object of type \x27bool\x27 has no len()")
  | JValue.null => Except.error ("TypeError", "object of type \x27NoneType\x27 has no len()")

/-- Truthiness of an optional-string argument (`if symbol:`) — `None` and the
empty string are falsy. -/
def pyTruthyOpt : Option String → Bool
  | none => false
  | some s => !(s = "")

/-- f-string rendering of an optional-string argument. -/
def pyStrOpt : Option String → String
  | none => "None"
  | some s => s

/-- JSON encoding of an optional-string payload entry (`None` becomes null). -/
def jOptStr : Option String → JValue
  | none => JValue.null
  | some s => JValue.str s

/-- Python `str.upper()` (the method strings and ticker symbols involved are
ASCII, where per-character upper-casing is exact). -/
def pyUpper (s : String) : String :=
  ⟨s.data.map Char.toUpper⟩

/-- Python `s[:n]` (slicing by code points). -/
def pyTake (s : String) (n : Nat) : String :=
  ⟨s.data.take n⟩

/-- `query[:100] + "..." if len(query) > 100 else query`. -/
def query_preview (query : String) : String :=
  if query.length > 100 then pyTake query 100 ++ "..." else query

/-- `len(result) if isinstance(result, list) else "unknown"`. -/
def result_count (r : JValue) : JValue :=
  match r with
  | JValue.arr xs => JValue.num xs.length
  | _ => JValue.str "unknown"

/-- The outcome of a Python call that may raise: a value, or an exception
(type name, message). -/
inductive PyResult (α : Type) where
  | ok : α → PyResult α
  | exn : String → String → PyResult α

/-- The HTTP request the Dispatcher hands to the `requests` library. -/
structure HttpRequest where
  method : String
  url : String
  headers : List (String × String)
  body : Option JValue

/-- What the transport does with one request: a 2xx response with a parsed
JSON body, or a `requests.RequestException` (connection error, timeout, or
the `HTTPError` from `raise_for_status` on a non-2xx status) carrying
`str(e)`. -/
inductive TransportResult where
  | success : JValue → TransportResult
  | requestException : String → TransportResult

/-- A fixed behaviour of the network for the duration of one call. -/
abbrev Transport := HttpRequest → TransportResult

/-- The `try`/`except requests.RequestException` wrapper of the source: a 2xx
body is returned verbatim, a transport failure becomes the error-shaped
mapping. -/
def responseFor : TransportResult → JValue
  | TransportResult.success body => body
  | TransportResult.requestException msg =>
      JValue.obj [("error", JValue.str ("API request failed: " ++ msg))]

/-- `Tools.Valves`: the externally configured credential. -/
structure Valves where
  api_key : String

/-- `_make_api_request` with a (non-None) valves object: the body of the
source function after the `valves.api_key` header access succeeded.  Returns
the Response together with the list of network calls performed. -/
def _make_api_request_auth (transport : Transport) (method endpoint : String)
    (data : Option JValue) (v : Valves) : JValue × List HttpRequest :=
  let url := "https://api.lvcdev.com" ++ endpoint
  let headers := [("Authorization", "Bearer " ++ v.api_key),
                  ("Content-Type", "application/json")]
  if pyUpper method = "GET" then
    let req : HttpRequest := ⟨"GET", url, headers, none⟩
    (responseFor (transport req), [req])
  else if pyUpper method = "POST" then
    let req : HttpRequest := ⟨"POST", url, headers, data⟩
    (responseFor (transport req), [req])
  else
    (JValue.obj [("error", JValue.str ("Unsupported HTTP method: " ++ method))], [])

/-- `_make_api_request(method, endpoint, data=None, valves=None)`.  The header
construction `f"Bearer {valves.api_key}"` happens before the `try` block, so a
`None` valves (the parameter default) raises `AttributeError` before any
network activity. -/
def _make_api_request (transport : Transport) (method endpoint : String)
    (data : Option JValue) (valves : Option Valves) :
    PyResult JValue × List HttpRequest :=
  match valves with
  | none =>
      (PyResult.exn "AttributeError"
        "\x27NoneType\x27 object has no attribute \x27api_key\x27", [])
  | some v =>
      let dres := _make_api_request_auth transport method endpoint data v
      (PyResult.ok dres.1, dres.2)

/-- The payload of one status event: the dict
`{"type": event_type, "data": {"description": ..., "done": ..., "hidden": False}}`
built by `_emit_event`, with its fixed keys flattened into fields. -/
structure StatusEvent where
  etype : String
  description : String
  done : Bool
  hidden : Bool

/-- The payload of one citation event: the dict
`{"type": "citation", "data": {"document": [content], "source": {"name": title, "url": url}}}`
built by `_emit_citation`.  The callers pass `item.get(...)` results, so the
fields hold arbitrary JSON values. -/
structure CitationEvent where
  document : List JValue
  name : JValue
  url : JValue

/-- An event delivered through the host sink. -/
inductive Event where
  | status : StatusEvent → Event
  | citation : CitationEvent → Event

/-- The optional `__event_emitter__` callable.  `none` is Python `None`; a
function tells per event whether the awaited emission succeeds (`true`) or
raises (`false`). -/
abbrev Sink := Option (Event → Bool)

/-- A sink whose emissions all succeed. -/
def okSink : Sink := some (fun _ => true)

/-- A sink whose emissions all raise. -/
def raisingSink : Sink := some (fun _ => false)

/-- `_emit_event`: no-op without a sink; emission failures are swallowed by
`except Exception: pass`, so a raising sink delivers nothing and the caller
continues.  Returns the list of delivered events. -/
def _emit_event (sink : Sink) (event_type description : String) (done : Bool) :
    List Event :=
  match sink with
  | none => []
  | some deliver =>
      let e := Event.status ⟨event_type, description, done, false⟩
      if deliver e then [e] else []

/-- `_emit_citation` (investor.py): same swallowing behaviour. -/
def _emit_citation (sink : Sink) (content title url : JValue) : List Event :=
  match sink with
  | none => []
  | some deliver =>
      let e := Event.citation ⟨[content], title, url⟩
      if deliver e then [e] else []

/-- The `for item in result:` loop shape shared by the search operations. -/
def citeLoop (f : JValue → List Event) : List JValue → List Event
  | [] => []
  | x :: xs => f x ++ citeLoop f xs

/-- Citation loop of `semantic_search_transcripts` / `keyword_search_transcripts`:
one citation per dict item, `quotes`/`citation` defaulting to the empty
string, source URL fixed to `https://levelvc.com`. -/
def transcriptCites (sink : Sink) (result : JValue) : List Event :=
  match result with
  | JValue.arr items =>
      citeLoop (fun item =>
        if item.isObj then
          _emit_citation sink (item.getD "quotes" (JValue.str ""))
            (item.getD "citation" (JValue.str "")) (JValue.str "https://levelvc.com")
        else []) items
  | _ => []

/-- Citation loop of `semantic_search_knowledge` / `keyword_search_knowledge`:
title wrapped as `f"Knowledge Page {title}"`, URL from `public_url`. -/
def knowledgeCites (sink : Sink) (result : JValue) : List Event :=
  match result with
  | JValue.arr items =>
      citeLoop (fun item =>
        if item.isObj then
          _emit_citation sink (item.getD "quotes" (JValue.str ""))
            (JValue.str ("Knowledge Page " ++ pyStr (item.getD "title" (JValue.str "Unknown"))))
            (item.getD "public_url" (JValue.str ""))
        else []) items
  | _ => []

/-- Single citation of `get_transcript_details` on a dict Response. -/
def detailCites (sink : Sink) (result : JValue) : List Event :=
  if result.isObj then
    _emit_citation sink (result.getD "quotes" (JValue.str ""))
      (result.getD "citation" (JValue.str "")) (JValue.str "https://levelvc.com")
  else []

/-- Single citation of `fetch_knowledge_page` on a dict Response. -/
def pageCites (sink : Sink) (result : JValue) : List Event :=
  if result.isObj then
    _emit_citation sink (result.getD "quotes" (JValue.str ""))
      (JValue.str ("Knowledge Page " ++ pyStr (result.getD "title" (JValue.str "Unknown"))))
      (result.getD "public_url" (JValue.str ""))
  else []

/-- Outcome of one tool-operation invocation: the value returned to the host
(or the escaping exception), the events delivered through the sink in order,
and the network calls performed. -/
structure RunResult where
  result : PyResult JValue
  events : List Event
  requests : List HttpRequest

/-- The invocation pattern shared by all tool operations except
`get_athena_table_info`: emit a start status event, dispatch, then emit an
error terminal on an error-shaped Response, or a success terminal followed by
the operation's citations otherwise; the Response is returned unchanged. -/
def runToolPattern (sink : Sink) (startDesc : String)
    (dres : JValue × List HttpRequest) (errDesc okDesc : JValue → String)
    (citesOf : Sink → JValue → List Event) : RunResult :=
  ⟨PyResult.ok dres.1,
   _emit_event sink "status" startDesc false ++
     (if isErrorDict dres.1 then
        _emit_event sink "status" (errDesc dres.1) true
      else
        _emit_event sink "status" (okDesc dres.1) true ++ citesOf sink dres.1),
   dres.2⟩

/-- `Tools.read_athena_query` (engineer.py). -/
def read_athena_query (tr : Transport) (v : Valves) (sink : Sink)
    (query : String) : RunResult :=
  runToolPattern sink ("🔍 Executing Athena query: " ++ query_preview query)
    (_make_api_request_auth tr "POST" "/engineer/read-athena-query"
      (some (JValue.obj [("query", JValue.str query)])) v)
    (fun result => "❌ Athena query failed: "
      ++ pyStr (result.getD "error" (JValue.str "Unknown error")))
    (fun result => "✅ Athena query completed - returned "
      ++ pyStr (if result.isObj then result.getD "row_count" (JValue.str "unknown")
                else JValue.str "unknown") ++ " rows")
    (fun _ _ => [])

/-- `Tools.read_rds_query` (engineer.py). -/
def read_rds_query (tr : Transport) (v : Valves) (sink : Sink)
    (query : String) : RunResult :=
  runToolPattern sink ("🐘 Executing PostgreSQL query: " ++ query_preview query)
    (_make_api_request_auth tr "POST" "/engineer/read-rds-query"
      (some (JValue.obj [("query", JValue.str query)])) v)
    (fun result => "❌ PostgreSQL query failed: "
      ++ pyStr (result.getD "error" (JValue.str "Unknown error")))
    (fun result => "✅ PostgreSQL query completed - returned "
      ++ pyStr (if result.isObj then result.getD "row_count" (JValue.str "unknown")
                else JValue.str "unknown") ++ " rows")
    (fun _ _ => [])

/-- `columns_count` of `get_athena_table_info`:
`len(result.get("columns", [])) if isinstance(result, dict) else "unknown"`.
`len` raises `TypeError` when the `columns` value is a number, boolean or
null. -/
def columns_count (result : JValue) : PyResult JValue :=
  if result.isObj then
    match pyLen (result.getD "columns" (JValue.arr [])) with
    | Except.ok n => PyResult.ok (JValue.num n)
    | Except.error tm => PyResult.exn tm.1 tm.2
  else PyResult.ok (JValue.str "unknown")

/-- Tail of `get_athena_table_info` after the dispatch: on a success-shaped
Response the `columns_count` computation runs before the terminal emission,
so its `TypeError` escapes with only the start event delivered. -/
def table_info_finish (sink : Sink) (table_name : String)
    (dres : JValue × List HttpRequest) : RunResult :=
  if isErrorDict dres.1 then
    ⟨PyResult.ok dres.1,
     _emit_event sink "status" ("📊 Fetching table schema for " ++ table_name) false
       ++ _emit_event sink "status" ("❌ Failed to fetch table info: "
            ++ pyStr (dres.1.getD "error" (JValue.str "Unknown error"))) true,
     dres.2⟩
  else
    match columns_count dres.1 with
    | PyResult.ok cc =>
        ⟨PyResult.ok dres.1,
         _emit_event sink "status" ("📊 Fetching table schema for " ++ table_name) false
           ++ _emit_event sink "status" ("✅ Successfully fetched schema for "
                ++ table_name ++ " - " ++ pyStr cc ++ " columns") true,
         dres.2⟩
    | PyResult.exn ty m =>
        ⟨PyResult.exn ty m,
         _emit_event sink "status" ("📊 Fetching table schema for " ++ table_name) false,
         dres.2⟩

/-- `Tools.get_athena_table_info` (engineer.py). -/
def get_athena_table_info (tr : Transport) (v : Valves) (sink : Sink)
    (table_name : String) : RunResult :=
  table_info_finish sink table_name
    (_make_api_request_auth tr "POST" "/engineer/get-athena-table-info"
      (some (JValue.obj [("table_name", JValue.str table_name)])) v)

/-- `search_details` of `semantic_search_transcripts`. -/
def semanticTranscriptDetails (query search_type limit : String)
    (symbol year quarter : Option String) : String :=
  let d := "query=\x27" ++ query ++ "\x27, search_type=\x27" ++ search_type
    ++ "\x27, limit=" ++ limit
  let d := if pyTruthyOpt symbol then d ++ ", symbol=" ++ pyStrOpt symbol else d
  let d := if pyTruthyOpt year then d ++ ", year=" ++ pyStrOpt year else d
  if pyTruthyOpt quarter then d ++ ", quarter=" ++ pyStrOpt quarter else d

/-- `Tools.semantic_search_transcripts` (investor.py). -/
def semantic_search_transcripts (tr : Transport) (v : Valves) (sink : Sink)
    (query search_type limit : String)
    (symbol year quarter min_year max_year : Option String)
    (extract_quotes : Bool) : RunResult :=
  runToolPattern sink
    ("🔍 Searching earnings transcripts with semantic search ("
      ++ semanticTranscriptDetails query search_type limit symbol year quarter ++ ")")
    (_make_api_request_auth tr "POST" "/investor/semantic-search-transcripts"
      (some (JValue.obj [("query", JValue.str query),
        ("search_type", JValue.str search_type), ("limit", JValue.str limit),
        ("symbol", jOptStr symbol), ("year", jOptStr year),
        ("quarter", jOptStr quarter), ("min_year", jOptStr min_year),
        ("max_year", jOptStr max_year),
        ("extract_quotes", JValue.bool extract_quotes)])) v)
    (fun result => "❌ Semantic search failed: "
      ++ pyStr (result.getD "error" (JValue.str "Unknown error")))
    (fun result => "✅ Semantic search completed - found "
      ++ pyStr (result_count result) ++ " results")
    transcriptCites

/-- `search_details` of `keyword_search_transcripts`. -/
def keywordTranscriptDetails (keywords match_type limit : String)
    (symbol year quarter : Option String) : String :=
  let d := "keywords=\x27" ++ keywords ++ "\x27, match_type=\x27" ++ match_type
    ++ "\x27, limit=" ++ limit
  let d := if pyTruthyOpt symbol then d ++ ", symbol=" ++ pyStrOpt symbol else d
  let d := if pyTruthyOpt year then d ++ ", year=" ++ pyStrOpt year else d
  if pyTruthyOpt quarter then d ++ ", quarter=" ++ pyStrOpt quarter else d

/-- `Tools.keyword_search_transcripts` (investor.py). -/
def keyword_search_transcripts (tr : Transport) (v : Valves) (sink : Sink)
    (keywords limit : String)
    (symbol year quarter min_year max_year : Option String)
    (match_type : String) (extract_quotes : Bool) : RunResult :=
  runToolPattern sink
    ("🔍 Searching earnings transcripts with keyword search ("
      ++ keywordTranscriptDetails keywords match_type limit symbol year quarter ++ ")")
    (_make_api_request_auth tr "POST" "/investor/keyword-search-transcripts"
      (some (JValue.obj [("keywords", JValue.str keywords),
        ("limit", JValue.str limit), ("symbol", jOptStr symbol),
        ("year", jOptStr year), ("quarter", jOptStr quarter),
        ("min_year", jOptStr min_year), ("max_year", jOptStr max_year),
        ("match_type", JValue.str match_type),
        ("extract_quotes", JValue.bool extract_quotes)])) v)
    (fun result => "❌ Keyword search failed: "
      ++ pyStr (result.getD "error" (JValue.str "Unknown error")))
    (fun result => "✅ Keyword search completed - found "
      ++ pyStr (result_count result) ++ " results")
    transcriptCites

/-- `Tools.get_transcript_details` (investor.py).  Note the payload upper-cases
`symbol` and `quarter`. -/
def get_transcript_details (tr : Transport) (v : Valves) (sink : Sink)
    (symbol year quarter : String) : RunResult :=
  runToolPattern sink
    ("📄 Fetching transcript details for " ++ pyUpper symbol ++ " " ++ year
      ++ " " ++ pyUpper quarter)
    (_make_api_request_auth tr "POST" "/investor/transcript-details"
      (some (JValue.obj [("symbol", JValue.str (pyUpper symbol)),
        ("year", JValue.str year), ("quarter", JValue.str (pyUpper quarter))])) v)
    (fun result => "❌ Failed to fetch transcript: "
      ++ pyStr (result.getD "error" (JValue.str "Unknown error")))
    (fun _ => "✅ Successfully fetched transcript for " ++ pyUpper symbol
      ++ " " ++ year ++ " " ++ pyUpper quarter)
    detailCites

/-- `search_details` of `semantic_search_knowledge`. -/
def knowledgeSearchDetails (query search_type limit : String)
    (entity_type : Option String) : String :=
  let d := "query=\x27" ++ query ++ "\x27, search_type=\x27" ++ search_type
    ++ "\x27, limit=" ++ limit
  if pyTruthyOpt entity_type then d ++ ", entity_type=" ++ pyStrOpt entity_type else d

/-- `Tools.semantic_search_knowledge` (investor.py). -/
def semantic_search_knowledge (tr : Transport) (v : Valves) (sink : Sink)
    (query search_type limit : String) (entity_type : Option String)
    (extract_quotes : Bool) : RunResult :=
  runToolPattern sink
    ("🧠 Searching knowledge base with semantic search ("
      ++ knowledgeSearchDetails query search_type limit entity_type ++ ")")
    (_make_api_request_auth tr "POST" "/investor/semantic-search-knowledge"
      (some (JValue.obj [("query", JValue.str query),
        ("search_type", JValue.str search_type), ("limit", JValue.str limit),
        ("entity_type", jOptStr entity_type),
        ("extract_quotes", JValue.bool extract_quotes)])) v)
    (fun result => "❌ Knowledge search failed: "
      ++ pyStr (result.getD "error" (JValue.str "Unknown error")))
    (fun result => "✅ Knowledge search completed - found "
      ++ pyStr (result_count result) ++ " results")
    knowledgeCites

/-- `search_details` of `find_similar_organizations`. -/
def similarOrgDetails (query search_type limit : String)
    (country_code funding_stage : Option String) (use_reference_org : Bool) : String :=
  let d := "query=\x27" ++ query ++ "\x27, search_type=\x27" ++ search_type
    ++ "\x27, limit=" ++ limit
  let d := if pyTruthyOpt country_code then d ++ ", country=" ++ pyStrOpt country_code else d
  let d := if pyTruthyOpt funding_stage then d ++ ", stage=" ++ pyStrOpt funding_stage else d
  if use_reference_org then d ++ ", reference_org=True" else d

/-- `Tools.find_similar_organizations` (investor.py). -/
def find_similar_organizations (tr : Transport) (v : Valves) (sink : Sink)
    (query search_type limit : String)
    (country_code funding_stage level_portfolio min_funding_usd max_funding_usd
      min_market_cap max_market_cap : Option String)
    (status : String) (use_reference_org : Bool)
    (reference_search_method : String) (use_llm_filtering : Bool) : RunResult :=
  runToolPattern sink
    ("🏢 Finding similar organizations ("
      ++ similarOrgDetails query search_type limit country_code funding_stage
           use_reference_org ++ ")")
    (_make_api_request_auth tr "POST" "/investor/similar-organizations"
      (some (JValue.obj [("query", JValue.str query),
        ("search_type", JValue.str search_type), ("limit", JValue.str limit),
        ("country_code", jOptStr country_code),
        ("funding_stage", jOptStr funding_stage),
        ("level_portfolio", jOptStr level_portfolio),
        ("min_funding_usd", jOptStr min_funding_usd),
        ("max_funding_usd", jOptStr max_funding_usd),
        ("min_market_cap", jOptStr min_market_cap),
        ("max_market_cap", jOptStr max_market_cap),
        ("status", JValue.str status),
        ("use_reference_org", JValue.bool use_reference_org),
        ("reference_search_method", JValue.str reference_search_method),
        ("use_llm_filtering", JValue.bool use_llm_filtering)])) v)
    (fun result => "❌ Organization search failed: "
      ++ pyStr (result.getD "error" (JValue.str "Unknown error")))
    (fun result => "✅ Found " ++ pyStr (result_count result)
      ++ " similar organizations")
    (fun _ _ => [])

/-- `Tools.get_organization_details` (investor.py). -/
def get_organization_details (tr : Transport) (v : Valves) (sink : Sink)
    (identifier search_by : String) : RunResult :=
  runToolPattern sink
    ("🏢 Fetching organization details for " ++ identifier ++ " (by " ++ search_by ++ ")")
    (_make_api_request_auth tr "POST" "/investor/organization-details"
      (some (JValue.obj [("identifier", JValue.str identifier),
        ("search_by", JValue.str search_by)])) v)
    (fun result => "❌ Failed to fetch organization details: "
      ++ pyStr (result.getD "error" (JValue.str "Unknown error")))
    (fun result => "✅ Successfully fetched details for "
      ++ pyStr (if result.isObj then result.getD "name" (JValue.str identifier)
                else JValue.str identifier))
    (fun _ _ => [])

/-- `search_details` of `search_documents`. -/
def documentSearchDetails (query search_type limit : String)
    (author tags : Option String) : String :=
  let d := "query=\x27" ++ query ++ "\x27, search_type=\x27" ++ search_type
    ++ "\x27, limit=" ++ limit
  let d := if pyTruthyOpt author then d ++ ", author=" ++ pyStrOpt author else d
  if pyTruthyOpt tags then d ++ ", tags=" ++ pyStrOpt tags else d

/-- `Tools.search_documents` (investor.py). -/
def search_documents (tr : Transport) (v : Valves) (sink : Sink)
    (query search_type limit : String) (author tags : Option String)
    (extract_quotes : Bool) : RunResult :=
  runToolPattern sink
    ("📄 Searching documents ("
      ++ documentSearchDetails query search_type limit author tags ++ ")")
    (_make_api_request_auth tr "POST" "/investor/search-documents"
      (some (JValue.obj [("query", JValue.str query),
        ("search_type", JValue.str search_type), ("limit", JValue.str limit),
        ("author", jOptStr author), ("tags", jOptStr tags),
        ("extract_quotes", JValue.bool extract_quotes)])) v)
    (fun result => "❌ Document search failed: "
      ++ pyStr (result.getD "error" (JValue.str "Unknown error")))
    (fun result => "✅ Document search completed - found "
      ++ pyStr (result_count result) ++ " documents")
    (fun _ _ => [])

/-- `filter_details` of `list_recent_documents`. -/
def recentDocumentDetails (limit : String) (author tags : Option String) : String :=
  let d := "limit=" ++ limit
  let d := if pyTruthyOpt author then d ++ ", author=" ++ pyStrOpt author else d
  if pyTruthyOpt tags then d ++ ", tags=" ++ pyStrOpt tags else d

/-- `Tools.list_recent_documents` (investor.py). -/
def list_recent_documents (tr : Transport) (v : Valves) (sink : Sink)
    (limit : String) (author tags : Option String) : RunResult :=
  runToolPattern sink
    ("📅 Fetching recent documents (" ++ recentDocumentDetails limit author tags ++ ")")
    (_make_api_request_auth tr "POST" "/investor/recent-documents"
      (some (JValue.obj [("limit", JValue.str limit), ("author", jOptStr author),
        ("tags", jOptStr tags)])) v)
    (fun result => "❌ Failed to fetch recent documents: "
      ++ pyStr (result.getD "error" (JValue.str "Unknown error")))
    (fun result => "✅ Successfully fetched " ++ pyStr (result_count result)
      ++ " recent documents")
    (fun _ _ => [])

/-- `search_details` of `keyword_search_knowledge`. -/
def keywordKnowledgeDetails (keywords match_type limit : String)
    (entity_type : Option String) : String :=
  let d := "keywords=\x27" ++ keywords ++ "\x27, match_type=\x27" ++ match_type
    ++ "\x27, limit=" ++ limit
  if pyTruthyOpt entity_type then d ++ ", entity_type=" ++ pyStrOpt entity_type else d

/-- `Tools.keyword_search_knowledge` (investor.py). -/
def keyword_search_knowledge (tr : Transport) (v : Valves) (sink : Sink)
    (keywords limit : String) (entity_type : Option String)
    (match_type : String) (extract_quotes : Bool) : RunResult :=
  runToolPattern sink
    ("🔍 Searching knowledge base with keywords ("
      ++ keywordKnowledgeDetails keywords match_type limit entity_type ++ ")")
    (_make_api_request_auth tr "POST" "/investor/keyword-search-knowledge"
      (some (JValue.obj [("keywords", JValue.str keywords),
        ("limit", JValue.str limit), ("entity_type", jOptStr entity_type),
        ("match_type", JValue.str match_type),
        ("extract_quotes", JValue.bool extract_quotes)])) v)
    (fun result => "❌ Knowledge keyword search failed: "
      ++ pyStr (result.getD "error" (JValue.str "Unknown error")))
    (fun result => "✅ Knowledge keyword search completed - found "
      ++ pyStr (result_count result) ++ " results")
    knowledgeCites

/-- `Tools.fetch_knowledge_page` (investor.py). -/
def fetch_knowledge_page (tr : Transport) (v : Valves) (sink : Sink)
    (uuid : String) : RunResult :=
  runToolPattern sink ("📃 Fetching knowledge page " ++ uuid)
    (_make_api_request_auth tr "POST" "/investor/fetch-knowledge-page"
      (some (JValue.obj [("uuid", JValue.str uuid)])) v)
    (fun result => "❌ Failed to fetch knowledge page: "
      ++ pyStr (result.getD "error" (JValue.str "Unknown error")))
    (fun result => "✅ Successfully fetched knowledge page: "
      ++ pyStr (if result.isObj then result.getD "title" (JValue.str uuid)
                else JValue.str uuid))
    pageCites

/-- `Tools.get_document_details` (investor.py). -/
def get_document_details (tr : Transport) (v : Valves) (sink : Sink)
    (uuid : String) : RunResult :=
  runToolPattern sink ("📄 Fetching document details for " ++ uuid)
    (_make_api_request_auth tr "POST" "/investor/document-details"
      (some (JValue.obj [("uuid", JValue.str uuid)])) v)
    (fun result => "❌ Failed to fetch document details: "
      ++ pyStr (result.getD "error" (JValue.str "Unknown error")))
    (fun result => "✅ Successfully fetched document: "
      ++ pyStr (if result.isObj then result.getD "title" (JValue.str uuid)
                else JValue.str uuid))
    (fun _ _ => [])

/-- One invocation of any of the fourteen tool operations, with its caller
supplied arguments. -/
inductive ToolCall where
  | read_athena_query (query : String)
  | read_rds_query (query : String)
  | get_athena_table_info (table_name : String)
  | semantic_search_transcripts (query search_type limit : String)
      (symbol year quarter min_year max_year : Option String) (extract_quotes : Bool)
  | keyword_search_transcripts (keywords limit : String)
      (symbol year quarter min_year max_year : Option String)
      (match_type : String) (extract_quotes : Bool)
  | get_transcript_details (symbol year quarter : String)
  | semantic_search_knowledge (query search_type limit : String)
      (entity_type : Option String) (extract_quotes : Bool)
  | find_similar_organizations (query search_type limit : String)
      (country_code funding_stage level_portfolio min_funding_usd max_funding_usd
        min_market_cap max_market_cap : Option String)
      (status : String) (use_reference_org : Bool)
      (reference_search_method : String) (use_llm_filtering : Bool)
  | get_organization_details (identifier search_by : String)
  | search_documents (query search_type limit : String)
      (author tags : Option String) (extract_quotes : Bool)
  | list_recent_documents (limit : String) (author tags : Option String)
  | keyword_search_knowledge (keywords limit : String)
      (entity_type : Option String) (match_type : String) (extract_quotes : Bool)
  | fetch_knowledge_page (uuid : String)
  | get_document_details (uuid : String)

/-- Run one tool operation against a transport, credential and sink. -/
def runTool (c : ToolCall) (tr : Transport) (v : Valves) (sink : Sink) : RunResult :=
  match c with
  | ToolCall.read_athena_query q => read_athena_query tr v sink q
  | ToolCall.read_rds_query q => read_rds_query tr v sink q
  | ToolCall.get_athena_table_info t => get_athena_table_info tr v sink t
  | ToolCall.semantic_search_transcripts q st li sy y qu mi ma eq =>
      semantic_search_transcripts tr v sink q st li sy y qu mi ma eq
  | ToolCall.keyword_search_transcripts kw li sy y qu mi ma mt eq =>
      keyword_search_transcripts tr v sink kw li sy y qu mi ma mt eq
  | ToolCall.get_transcript_details sy y qu => get_transcript_details tr v sink sy y qu
  | ToolCall.semantic_search_knowledge q st li et eq =>
      semantic_search_knowledge tr v sink q st li et eq
  | ToolCall.find_similar_organizations q st li cc fs lp mif maf mim mam s uro rsm ulf =>
      find_similar_organizations tr v sink q st li cc fs lp mif maf mim mam s uro rsm ulf
  | ToolCall.get_organization_details i sb => get_organization_details tr v sink i sb
  | ToolCall.search_documents q st li a t eq => search_documents tr v sink q st li a t eq
  | ToolCall.list_recent_documents li a t => list_recent_documents tr v sink li a t
  | ToolCall.keyword_search_knowledge kw li et mt eq =>
      keyword_search_knowledge tr v sink kw li et mt eq
  | ToolCall.fetch_knowledge_page u => fetch_knowledge_page tr v sink u
  | ToolCall.get_document_details u => get_document_details tr v sink u

/-- The status events of a trace, in order. -/
def statusEvents (l : List Event) : List StatusEvent :=
  l.filterMap (fun e => match e with
    | Event.status s => some s
    | Event.citation _ => none)

/-- The citation events of a trace, in order. -/
def citationEvents (l : List Event) : List CitationEvent :=
  l.filterMap (fun e => match e with
    | Event.citation c => some c
    | Event.status _ => none)

/-- The `done` flags of the status events of a trace, in order. -/
def statusDones (l : List Event) : List Bool :=
  (statusEvents l).map (fun s => s.done)

/-- Does a trace consist of citation events only? -/
def allCitations (l : List Event) : Bool :=
  l.all (fun e => match e with
    | Event.citation _ => true
    | Event.status _ => false)

/-- The three module-level configuration values imported by langfuse.py from
`open_webui.env`; an unset environment variable is the empty string. -/
structure LangfuseConfig where
  secret_key : String
  public_key : String
  host : String

/-- The third-party `Langfuse` client object, recorded by the keys it was
constructed with. -/
structure LangfuseClient where
  secret_key : String
  public_key : String
  host : String

/-- The message of the `ValueError` raised on missing keys. -/
def langfuseMissingKeysMsg : String :=
  "Langfuse is enabled but missing required keys (LANGFUSE_SECRET_KEY, LANGFUSE_PUBLIC_KEY)"

/-- `get_langfuse_client`: the module-global `_langfuse_client` cache is passed
in and returned explicitly (initially `none`).  With an empty cache and a
falsy secret or public key it raises `ValueError` and creates no client. -/
def get_langfuse_client (cfg : LangfuseConfig) (cache : Option LangfuseClient) :
    PyResult LangfuseClient × Option LangfuseClient :=
  match cache with
  | some c => (PyResult.ok c, some c)
  | none =>
      if cfg.secret_key = "" ∨ cfg.public_key = "" then
        (PyResult.exn "ValueError" langfuseMissingKeysMsg, none)
      else
        let c : LangfuseClient := ⟨cfg.secret_key, cfg.public_key, cfg.host⟩
        (PyResult.ok c, some c)

/-- `get_prompt`: obtains the client (propagating its `ValueError`) and asks
the third-party SDK — modelled by the oracle `promptCompile` — for the
compiled prompt text. -/
def get_prompt (promptCompile : LangfuseClient → String → String)
    (cfg : LangfuseConfig) (cache : Option LangfuseClient) (prompt_name : String) :
    PyResult String × Option LangfuseClient :=
  match get_langfuse_client cfg cache with
  | (PyResult.ok c, cache2) => (PyResult.ok (promptCompile c prompt_name), cache2)
  | (PyResult.exn ty m, cache2) => (PyResult.exn ty m, cache2)

/-- A span as used by `get_trace_url_from_span`: only its `trace_id` attribute
is read (`None` or a string). -/
structure Span where
  trace_id : Option String

/-- Python `host.rstrip("/")`: drop every trailing slash. -/
def pyRstripSlash (s : String) : String :=
  ⟨(s.data.reverse.dropWhile (fun c => c = '/')).reverse⟩

/-- `get_trace_url_from_span`: with a truthy trace id and a truthy configured
host, returns `f"{host.rstrip(chr(47))}/trace/{trace_id}"`; otherwise returns
`None`. -/
def get_trace_url_from_span (host : String) (span : Span) : Option String :=
  match span.trace_id with
  | none => none
  | some tid =>
      if tid ≠ "" ∧ host ≠ "" then
        some (pyRstripSlash host ++ "/trace/" ++ tid)
      else none

/-- Mock transport for the C7 scenario: every request gets a 2xx response with
body `{"data": [...], "row_count": 3}`. -/
def sampleAthenaResponse : JValue :=
  JValue.obj [("data", JValue.arr [JValue.str "row"]), ("row_count", JValue.num 3)]

/-- Transport returning `sampleAthenaResponse` on every request. -/
def sampleAthenaTransport : Transport := fun _ => TransportResult.success sampleAthenaResponse

/-- Transport whose every request fails with a connection error. -/
def failingTransport : Transport := fun _ => TransportResult.requestException "boom"

/-- Transport returning a success list holding one empty dict item. -/
def emptyItemTransport : Transport :=
  fun _ => TransportResult.success (JValue.arr [JValue.obj []])

/-- Transport returning a bare string body. -/
def pongTransport : Transport := fun _ => TransportResult.success (JValue.str "pong")

/-- The citation records `semantic_search_transcripts` and
`keyword_search_transcripts` produce for a Response, as plain data: one per
dict item, quote and citation fields defaulting to the empty string, source
URL constant. -/
def transcriptCiteList (res : JValue) : List CitationEvent :=
  match res with
  | JValue.arr items =>
      (items.filter (fun i => i.isObj)).map (fun item =>
        ⟨[item.getD "quotes" (JValue.str "")], item.getD "citation" (JValue.str ""),
         JValue.str "https://levelvc.com"⟩)
  | _ => []

/-- The citation records `get_transcript_details` produces for a Response. -/
def detailCiteList (res : JValue) : List CitationEvent :=
  if res.isObj then
    [⟨[res.getD "quotes" (JValue.str "")], res.getD "citation" (JValue.str ""),
      JValue.str "https://levelvc.com"⟩]
  else []

/-- The endpoint path each tool operation posts to. -/
def expectedEndpoint : ToolCall → String
  | ToolCall.read_athena_query _ => "/engineer/read-athena-query"
  | ToolCall.read_rds_query _ => "/engineer/read-rds-query"
  | ToolCall.get_athena_table_info _ => "/engineer/get-athena-table-info"
  | ToolCall.semantic_search_transcripts .. => "/investor/semantic-search-transcripts"
  | ToolCall.keyword_search_transcripts .. => "/investor/keyword-search-transcripts"
  | ToolCall.get_transcript_details .. => "/investor/transcript-details"
  | ToolCall.semantic_search_knowledge .. => "/investor/semantic-search-knowledge"
  | ToolCall.find_similar_organizations .. => "/investor/similar-organizations"
  | ToolCall.get_organization_details .. => "/investor/organization-details"
  | ToolCall.search_documents .. => "/investor/search-documents"
  | ToolCall.list_recent_documents .. => "/investor/recent-documents"
  | ToolCall.keyword_search_knowledge .. => "/investor/keyword-search-knowledge"
  | ToolCall.fetch_knowledge_page _ => "/investor/fetch-knowledge-page"
  | ToolCall.get_document_details _ => "/investor/document-details"

/-- The payload each operation is expected to send: every caller-supplied
input placed exactly as given (strings verbatim, optional strings as null
when absent, booleans as booleans), with the single exception of
`get_transcript_details`, whose `symbol` and `quarter` are upper-cased. -/
def verbatimPayload : ToolCall → JValue
  | ToolCall.read_athena_query q => JValue.obj [("query", JValue.str q)]
  | ToolCall.read_rds_query q => JValue.obj [("query", JValue.str q)]
  | ToolCall.get_athena_table_info t => JValue.obj [("table_name", JValue.str t)]
  | ToolCall.semantic_search_transcripts q st li sy y qu mi ma eq =>
      JValue.obj [("query", JValue.str q), ("search_type", JValue.str st),
        ("limit", JValue.str li), ("symbol", jOptStr sy), ("year", jOptStr y),
        ("quarter", jOptStr qu), ("min_year", jOptStr mi), ("max_year", jOptStr ma),
        ("extract_quotes", JValue.bool eq)]
  | ToolCall.keyword_search_transcripts kw li sy y qu mi ma mt eq =>
      JValue.obj [("keywords", JValue.str kw), ("limit", JValue.str li),
        ("symbol", jOptStr sy), ("year", jOptStr y), ("quarter", jOptStr qu),
        ("min_year", jOptStr mi), ("max_year", jOptStr ma),
        ("match_type", JValue.str mt), ("extract_quotes", JValue.bool eq)]
  | ToolCall.get_transcript_details sy y qu =>
      JValue.obj [("symbol", JValue.str (pyUpper sy)), ("year", JValue.str y),
        ("quarter", JValue.str (pyUpper qu))]
  | ToolCall.semantic_search_knowledge q st li et eq =>
      JValue.obj [("query", JValue.str q), ("search_type", JValue.str st),
        ("limit", JValue.str li), ("entity_type", jOptStr et),
        ("extract_quotes", JValue.bool eq)]
  | ToolCall.find_similar_organizations q st li cc fs lp mif maf mim mam s uro rsm ulf =>
      JValue.obj [("query", JValue.str q), ("search_type", JValue.str st),
        ("limit", JValue.str li), ("country_code", jOptStr cc),
        ("funding_stage", jOptStr fs), ("level_portfolio", jOptStr lp),
        ("min_funding_usd", jOptStr mif), ("max_funding_usd", jOptStr maf),
        ("min_market_cap", jOptStr mim), ("max_market_cap", jOptStr mam),
        ("status", JValue.str s), ("use_reference_org", JValue.bool uro),
        ("reference_search_method", JValue.str rsm),
        ("use_llm_filtering", JValue.bool ulf)]
  | ToolCall.get_organization_details i sb =>
      JValue.obj [("identifier", JValue.str i), ("search_by", JValue.str sb)]
  | ToolCall.search_documents q st li a t eq =>
      JValue.obj [("query", JValue.str q), ("search_type", JValue.str st),
        ("limit", JValue.str li), ("author", jOptStr a), ("tags", jOptStr t),
        ("extract_quotes", JValue.bool eq)]
  | ToolCall.list_recent_documents li a t =>
      JValue.obj [("limit", JValue.str li), ("author", jOptStr a), ("tags", jOptStr t)]
  | ToolCall.keyword_search_knowledge kw li et mt eq =>
      JValue.obj [("keywords", JValue.str kw), ("limit", JValue.str li),
        ("entity_type", jOptStr et), ("match_type", JValue.str mt),
        ("extract_quotes", JValue.bool eq)]
  | ToolCall.fetch_knowledge_page u => JValue.obj [("uuid", JValue.str u)]
  | ToolCall.get_document_details u => JValue.obj [("uuid", JValue.str u)]

/-- A normal tool-operation run: the Response is returned unchanged, the trace
is a start status event, a terminal status event, then citation events only —
none on an error-shaped Response, and only for list or dict Responses. -/
def NormalRun (r : RunResult) : Prop :=
  ∃ res d₁ d₂ cites,
    r.result = PyResult.ok res ∧
    r.events = Event.status ⟨"status", d₁, false, false⟩ ::
      Event.status ⟨"status", d₂, true, false⟩ :: cites ∧
    allCitations cites = true ∧
    (isErrorDict res = true → cites = []) ∧
    (cites ≠ [] → res.isArr = true ∨ res.isObj = true)

/-- A run aborted by an escaping `TypeError`: only the start status event was
delivered. -/
def ExnRun (r : RunResult) : Prop :=
  ∃ d₁ m,
    r.result = PyResult.exn "TypeError" m ∧
    r.events = [Event.status ⟨"status", d₁, false, false⟩]

theorem emit_event_okSink (t d : String) (dn : Bool) :
    _emit_event okSink t d dn = [Event.status ⟨t, d, dn, false⟩] := rfl

theorem emit_citation_okSink (c t u : JValue) :
    _emit_citation okSink c t u = [Event.citation ⟨[c], t, u⟩] := rfl

theorem statusEvents_append (a b : List Event) :
    statusEvents (a ++ b) = statusEvents a ++ statusEvents b :=
  List.filterMap_append a b _

theorem citationEvents_append (a b : List Event) :
    citationEvents (a ++ b) = citationEvents a ++ citationEvents b :=
  List.filterMap_append a b _

theorem allCitations_append (a b : List Event) :
    allCitations (a ++ b) = (allCitations a && allCitations b) :=
  List.all_append

theorem allCitations_emit_citation (s : Sink) (c t u : JValue) :
    allCitations (_emit_citation s c t u) = true := by
  cases s with
  | none => rfl
  | some deliver =>
      simp only [_emit_citation]
      split <;> rfl

theorem allCitations_citeLoop (f : JValue → List Event)
    (h : ∀ x, allCitations (f x) = true) :
    ∀ l, allCitations (citeLoop f l) = true := by
  intro l
  induction l with
  | nil => rfl
  | cons x xs ih => simp [citeLoop, allCitations_append, h x, ih]

theorem statusEvents_of_allCitations (l : List Event)
    (h : allCitations l = true) : statusEvents l = [] := by
  induction l with
  | nil => rfl
  | cons e rest ih =>
      cases e with
      | status s => simp [allCitations] at h
      | citation c =>
          simp only [allCitations, List.all_cons, Bool.true_and] at h
          exact ih h

theorem citationEvents_map_of_allCitations (l : List Event)
    (h : allCitations l = true) :
    (citationEvents l).map Event.citation = l := by
  induction l with
  | nil => rfl
  | cons e rest ih =>
      cases e with
      | status s => simp [allCitations] at h
      | citation c =>
          simp only [allCitations, List.all_cons, Bool.true_and] at h
          have hc : citationEvents (Event.citation c :: rest) = c :: citationEvents rest := rfl
          rw [hc, List.map_cons, ih h]

theorem normalRun_pattern (startDesc : String) (dres : JValue × List HttpRequest)
    (errDesc okDesc : JValue → String) (citesOf : Sink → JValue → List Event)
    (hc : ∀ r, allCitations (citesOf okSink r) = true)
    (hshape : ∀ r, citesOf okSink r ≠ [] → r.isArr = true ∨ r.isObj = true) :
    NormalRun (runToolPattern okSink startDesc dres errDesc okDesc citesOf) := by
  unfold NormalRun
  by_cases h : isErrorDict dres.1 = true
  · refine ⟨dres.1, startDesc, errDesc dres.1, [], rfl, ?_, rfl, fun _ => rfl,
      fun hne => absurd rfl hne⟩
    simp [runToolPattern, h, emit_event_okSink]
  · refine ⟨dres.1, startDesc, okDesc dres.1, citesOf okSink dres.1, rfl, ?_, hc _,
      fun he => absurd he h, hshape _⟩
    simp [runToolPattern, h, emit_event_okSink]

theorem transcriptCites_allCitations (r : JValue) :
    allCitations (transcriptCites okSink r) = true := by
  cases r with
  | arr items =>
      refine allCitations_citeLoop _ (fun x => ?_) items
      by_cases hx : x.isObj = true
      · simp [hx, allCitations_emit_citation]
      · simp [hx, allCitations]
  | str s => rfl
  | num n => rfl
  | bool b => rfl
  | null => rfl
  | obj fs => rfl

theorem transcriptCites_shape (r : JValue) :
    transcriptCites okSink r ≠ [] → r.isArr = true ∨ r.isObj = true := by
  cases r with
  | arr items => exact fun _ => Or.inl rfl
  | str s => exact fun h => absurd rfl h
  | num n => exact fun h => absurd rfl h
  | bool b => exact fun h => absurd rfl h
  | null => exact fun h => absurd rfl h
  | obj fs => exact fun h => absurd rfl h

theorem knowledgeCites_allCitations (r : JValue) :
    allCitations (knowledgeCites okSink r) = true := by
  cases r with
  | arr items =>
      refine allCitations_citeLoop _ (fun x => ?_) items
      by_cases hx : x.isObj = true
      · simp [hx, allCitations_emit_citation]
      · simp [hx, allCitations]
  | str s => rfl
  | num n => rfl
  | bool b => rfl
  | null => rfl
  | obj fs => rfl

theorem knowledgeCites_shape (r : JValue) :
    knowledgeCites okSink r ≠ [] → r.isArr = true ∨ r.isObj = true := by
  cases r with
  | arr items => exact fun _ => Or.inl rfl
  | str s => exact fun h => absurd rfl h
  | num n => exact fun h => absurd rfl h
  | bool b => exact fun h => absurd rfl h
  | null => exact fun h => absurd rfl h
  | obj fs => exact fun h => absurd rfl h

theorem detailCites_allCitations (r : JValue) :
    allCitations (detailCites okSink r) = true := by
  unfold detailCites
  by_cases h : r.isObj = true
  · rw [if_pos h]
    exact allCitations_emit_citation _ _ _ _
  · rw [if_neg h]
    rfl

theorem detailCites_shape (r : JValue) :
    detailCites okSink r ≠ [] → r.isArr = true ∨ r.isObj = true := by
  by_cases h : r.isObj = true
  · exact fun _ => Or.inr h
  · simp [detailCites, h]

theorem pageCites_allCitations (r : JValue) :
    allCitations (pageCites okSink r) = true := by
  unfold pageCites
  by_cases h : r.isObj = true
  · rw [if_pos h]
    exact allCitations_emit_citation _ _ _ _
  · rw [if_neg h]
    rfl

theorem pageCites_shape (r : JValue) :
    pageCites okSink r ≠ [] → r.isArr = true ∨ r.isObj = true := by
  by_cases h : r.isObj = true
  · exact fun _ => Or.inr h
  · simp [pageCites, h]

theorem pyLen_error_first (j : JValue) (tm : String × String)
    (h : pyLen j = Except.error tm) : tm.1 = "TypeError" := by
  cases j <;> simp [pyLen] at h <;> simp [← h]

theorem columns_count_exn (r : JValue) (ty m : String)
    (h : columns_count r = PyResult.exn ty m) : ty = "TypeError" := by
  unfold columns_count at h
  by_cases ho : r.isObj = true
  · rw [if_pos ho] at h
    cases hl : pyLen (r.getD "columns" (JValue.arr [])) with
    | ok n => rw [hl] at h; exact absurd h (by simp)
    | error tm =>
        rw [hl] at h
        have h1 : tm.1 = "TypeError" := pyLen_error_first _ _ hl
        have h2 : PyResult.exn tm.1 tm.2 = PyResult.exn ty m := h
        rw [h1] at h2
        cases h2
        rfl
  · rw [if_neg ho] at h
    exact absurd h (by simp)

theorem table_info_finish_spec (t : String) (dres : JValue × List HttpRequest) :
    NormalRun (table_info_finish okSink t dres) ∨
    ExnRun (table_info_finish okSink t dres) := by
  by_cases h : isErrorDict dres.1 = true
  · left
    unfold NormalRun
    refine ⟨dres.1, "📊 Fetching table schema for " ++ t,
      "❌ Failed to fetch table info: "
        ++ pyStr (dres.1.getD "error" (JValue.str "Unknown error")), [],
      ?_, ?_, rfl, fun _ => rfl, fun hne => absurd rfl hne⟩
    · simp [table_info_finish, h]
    · simp [table_info_finish, h, emit_event_okSink]
  · cases hcc : columns_count dres.1 with
    | ok cc =>
        left
        unfold NormalRun
        refine ⟨dres.1, "📊 Fetching table schema for " ++ t,
          "✅ Successfully fetched schema for " ++ t ++ " - " ++ pyStr cc ++ " columns",
          [], ?_, ?_, rfl, fun he => absurd he h, fun hne => absurd rfl hne⟩
        · simp [table_info_finish, h, hcc]
        · simp [table_info_finish, h, hcc, emit_event_okSink]
    | exn ty m =>
        right
        unfold ExnRun
        refine ⟨"📊 Fetching table schema for " ++ t, m, ?_, ?_⟩
        · simp [table_info_finish, h, hcc, columns_count_exn dres.1 ty m hcc]
        · simp [table_info_finish, h, hcc, emit_event_okSink]

theorem runTool_spec_ok (c : ToolCall) (tr : Transport) (v : Valves) :
    NormalRun (runTool c tr v okSink) ∨
    ((∃ t, c = ToolCall.get_athena_table_info t) ∧ ExnRun (runTool c tr v okSink)) := by
  cases c with
  | get_athena_table_info t =>
      rcases table_info_finish_spec t (_make_api_request_auth tr "POST"
          "/engineer/get-athena-table-info"
          (some (JValue.obj [("table_name", JValue.str t)])) v) with h | h
      · exact Or.inl h
      · exact Or.inr ⟨⟨t, rfl⟩, h⟩
  | read_athena_query q =>
      exact Or.inl (normalRun_pattern _ _ _ _ _ (fun _ => rfl) (fun r hr => absurd rfl hr))
  | read_rds_query q =>
      exact Or.inl (normalRun_pattern _ _ _ _ _ (fun _ => rfl) (fun r hr => absurd rfl hr))
  | semantic_search_transcripts q st li sy y qu mi ma eq =>
      exact Or.inl (normalRun_pattern _ _ _ _ _ transcriptCites_allCitations
        transcriptCites_shape)
  | keyword_search_transcripts kw li sy y qu mi ma mt eq =>
      exact Or.inl (normalRun_pattern _ _ _ _ _ transcriptCites_allCitations
        transcriptCites_shape)
  | get_transcript_details sy y qu =>
      exact Or.inl (normalRun_pattern _ _ _ _ _ detailCites_allCitations detailCites_shape)
  | semantic_search_knowledge q st li et eq =>
      exact Or.inl (normalRun_pattern _ _ _ _ _ knowledgeCites_allCitations
        knowledgeCites_shape)
  | find_similar_organizations q st li cc fs lp mif maf mim mam s uro rsm ulf =>
      exact Or.inl (normalRun_pattern _ _ _ _ _ (fun _ => rfl) (fun r hr => absurd rfl hr))
  | get_organization_details i sb =>
      exact Or.inl (normalRun_pattern _ _ _ _ _ (fun _ => rfl) (fun r hr => absurd rfl hr))
  | search_documents q st li a t eq =>
      exact Or.inl (normalRun_pattern _ _ _ _ _ (fun _ => rfl) (fun r hr => absurd rfl hr))
  | list_recent_documents li a t =>
      exact Or.inl (normalRun_pattern _ _ _ _ _ (fun _ => rfl) (fun r hr => absurd rfl hr))
  | keyword_search_knowledge kw li et mt eq =>
      exact Or.inl (normalRun_pattern _ _ _ _ _ knowledgeCites_allCitations
        knowledgeCites_shape)
  | fetch_knowledge_page u =>
      exact Or.inl (normalRun_pattern _ _ _ _ _ pageCites_allCitations pageCites_shape)
  | get_document_details u =>
      exact Or.inl (normalRun_pattern _ _ _ _ _ (fun _ => rfl) (fun r hr => absurd rfl hr))


theorem make_auth_get (tr : Transport) (method endpoint : String)
    (data : Option JValue) (v : Valves) (h : pyUpper method = "GET") :
    _make_api_request_auth tr method endpoint data v
      = (responseFor (tr ⟨"GET", "https://api.lvcdev.com" ++ endpoint,
            [("Authorization", "Bearer " ++ v.api_key),
             ("Content-Type", "application/json")], none⟩),
         [⟨"GET", "https://api.lvcdev.com" ++ endpoint,
            [("Authorization", "Bearer " ++ v.api_key),
             ("Content-Type", "application/json")], none⟩]) := by
  unfold _make_api_request_auth
  rw [h]
  rfl

theorem make_auth_post (tr : Transport) (method endpoint : String)
    (data : Option JValue) (v : Valves) (h : pyUpper method = "POST") :
    _make_api_request_auth tr method endpoint data v
      = (responseFor (tr ⟨"POST", "https://api.lvcdev.com" ++ endpoint,
            [("Authorization", "Bearer " ++ v.api_key),
             ("Content-Type", "application/json")], data⟩),
         [⟨"POST", "https://api.lvcdev.com" ++ endpoint,
            [("Authorization", "Bearer " ++ v.api_key),
             ("Content-Type", "application/json")], data⟩]) := by
  unfold _make_api_request_auth
  rw [h]
  rfl

theorem make_auth_other (tr : Transport) (method endpoint : String)
    (data : Option JValue) (v : Valves)
    (h1 : pyUpper method ≠ "GET") (h2 : pyUpper method ≠ "POST") :
    _make_api_request_auth tr method endpoint data v
      = (JValue.obj [("error", JValue.str ("Unsupported HTTP method: " ++ method))],
         []) := by
  unfold _make_api_request_auth
  rw [if_neg h1, if_neg h2]

/-- C2 counterexample: with a supported method ("GET") and a transport that
fails at transport level, but with the `valves` parameter left at its `None`
default, the Dispatcher raises `AttributeError` before any network attempt —
it neither returns the error mapping nor refrains from propagating an
exception, so the claim as stated ("never propagates an exception to its
caller, for any input and any transport behaviour") is false at this
input. -/
theorem c2_counterexample :
    (_make_api_request failingTransport "GET" "/engineer/read-athena-query" none none).1
      = PyResult.exn "AttributeError"
          "\x27NoneType\x27 object has no attribute \x27api_key\x27" := rfl

/-- C2 (amended): for every call to the Request Dispatcher with a supported
method and a non-null valves object, any transport-level failure (connection
error, timeout, non-2xx status — all surfaced as `requests.RequestException`)
makes it return the mapping `{"error": "API request failed: <message>"}`; and
with a non-null valves the Dispatcher never propagates an exception, for any
method, payload and transport behaviour.  (With valves null, its parameter
default, it raises `AttributeError` instead: see the counterexample.) -/
theorem c2_dispatcher_error_values (tr : Transport) (method endpoint : String)
    (data : Option JValue) (v : Valves) (msg : String)
    (hm : pyUpper method = "GET" ∨ pyUpper method = "POST")
    (htr : ∀ req, tr req = TransportResult.requestException msg) :
    (_make_api_request tr method endpoint data (some v)).1
        = PyResult.ok (JValue.obj
            [("error", JValue.str ("API request failed: " ++ msg))]) ∧
    ∀ (tr2 : Transport) (m e : String) (d : Option JValue) (v2 : Valves),
      ∃ j, (_make_api_request tr2 m e d (some v2)).1 = PyResult.ok j := by
  constructor
  · show PyResult.ok (_make_api_request_auth tr method endpoint data v).1 = _
    rcases hm with h | h
    · rw [make_auth_get tr method endpoint data v h, htr]
      rfl
    · rw [make_auth_post tr method endpoint data v h, htr]
      rfl
  · intro tr2 m e d v2
    exact ⟨(_make_api_request_auth tr2 m e d v2).1, rfl⟩

/-- C2 witness: the amended theorem applied to a concrete failing transport
and a concrete valves object. -/
theorem c2_witness :
    (_make_api_request failingTransport "GET" "/engineer/read-athena-query" none
        (some ⟨"k"⟩)).1
      = PyResult.ok (JValue.obj [("error", JValue.str "API request failed: boom")]) :=
  (c2_dispatcher_error_values failingTransport "GET" "/engineer/read-athena-query" none
    ⟨"k"⟩ "boom" (Or.inl rfl) (fun _ => rfl)).1

/-- C3 counterexample: the method string "get" is not the method value "GET"
(nor "POST"), yet the Dispatcher performs a network call for it and does not
return the unsupported-method error — method matching is case-insensitive
(`method.upper()`), so the claim as stated ("for every other method string it
returns `{"error": ...}` ... and performs zero network calls") is false at
method="get". -/
theorem c3_counterexample :
    _make_api_request_auth pongTransport "get" "/x" none ⟨"k"⟩
      = (JValue.str "pong",
         [⟨"GET", "https://api.lvcdev.com/x",
           [("Authorization", "Bearer k"), ("Content-Type", "application/json")],
           none⟩]) := rfl

/-- C3 (amended): the Request Dispatcher attempts exactly one network call
when the method string upper-cases to "GET" or "POST"; for every method
string whose upper-casing is neither, it returns
`{"error": "Unsupported HTTP method: <method>"}` with the caller's original
method string embedded and performs zero network calls (in particular
method="PATCH" yields `{"error": "Unsupported HTTP method: PATCH"}`). -/
theorem c3_method_dispatch (tr : Transport) (method endpoint : String)
    (data : Option JValue) (v : Valves) :
    (pyUpper method = "GET" ∨ pyUpper method = "POST" →
      ∃ req, (_make_api_request_auth tr method endpoint data v).2 = [req]) ∧
    (pyUpper method ≠ "GET" → pyUpper method ≠ "POST" →
      _make_api_request_auth tr method endpoint data v
        = (JValue.obj [("error", JValue.str ("Unsupported HTTP method: " ++ method))],
           [])) := by
  constructor
  · rintro (h | h)
    · exact ⟨_, by rw [make_auth_get tr method endpoint data v h]⟩
    · exact ⟨_, by rw [make_auth_post tr method endpoint data v h]⟩
  · intro h1 h2
    exact make_auth_other tr method endpoint data v h1 h2

/-- C3 witness: the PATCH scenario of the claim, derived from the amended
theorem. -/
theorem c3_witness :
    _make_api_request_auth pongTransport "PATCH" "/x" none ⟨"k"⟩
      = (JValue.obj [("error", JValue.str "Unsupported HTTP method: PATCH")], []) :=
  (c3_method_dispatch pongTransport "PATCH" "/x" none ⟨"k"⟩).2
    (by decide) (by decide)

/-- C6 counterexample: `get_transcript_details` called with symbol "aapl" and
quarter "q1" places "AAPL" and "Q1" in the payload — `.upper()` is applied —
so the claim as stated (the payload value "equals the caller's argument
exactly, with no local validation, coercion, or transformation") is false at
these inputs. -/
theorem c6_counterexample :
    (runTool (ToolCall.get_transcript_details "aapl" "2024" "q1")
        pongTransport ⟨"k"⟩ none).requests
      = [⟨"POST", "https://api.lvcdev.com/investor/transcript-details",
          [("Authorization", "Bearer k"), ("Content-Type", "application/json")],
          some (JValue.obj [("symbol", JValue.str "AAPL"), ("year", JValue.str "2024"),
            ("quarter", JValue.str "Q1")])⟩] ∧
    ("AAPL" : String) ≠ "aapl" := ⟨rfl, by decide⟩

theorem table_info_finish_requests (sink : Sink) (t : String)
    (dres : JValue × List HttpRequest) :
    (table_info_finish sink t dres).requests = dres.2 := by
  unfold table_info_finish
  by_cases h : isErrorDict dres.1 = true
  · rw [if_pos h]
  · rw [if_neg h]
    cases columns_count dres.1 <;> rfl

/-- C6 (amended): for every Tool Operation, the request handed to the
Dispatcher is a single POST to the operation's endpoint whose payload places
every caller-supplied input exactly as given — no local validation, coercion
or bounds enforcement, including limit values beyond the documented
"max 50" — with the single exception that `get_transcript_details`
upper-cases `symbol` and `quarter` (its `year` is still forwarded
verbatim). -/
theorem c6_payload_forwarding (c : ToolCall) (tr : Transport) (v : Valves) :
    (runTool c tr v okSink).requests
      = [⟨"POST", "https://api.lvcdev.com" ++ expectedEndpoint c,
          [("Authorization", "Bearer " ++ v.api_key),
           ("Content-Type", "application/json")],
          some (verbatimPayload c)⟩] := by
  cases c
  case get_athena_table_info t =>
    show (table_info_finish okSink t (_make_api_request_auth tr "POST"
      "/engineer/get-athena-table-info"
      (some (JValue.obj [("table_name", JValue.str t)])) v)).requests = _
    rw [table_info_finish_requests, make_auth_post tr "POST"
      "/engineer/get-athena-table-info"
      (some (JValue.obj [("table_name", JValue.str t)])) v rfl]
    rfl
  all_goals rfl

/-- C9: for every span with a non-empty trace id, and a non-empty configured
host, `get_trace_url_from_span` returns exactly `<host>/trace/<trace_id>`
with every trailing slash removed from the host; with an empty trace id or an
empty host it returns `None`. -/
theorem c9_trace_url (host tid : String) (htid : tid ≠ "") (hhost : host ≠ "") :
    get_trace_url_from_span host ⟨some tid⟩
        = some (pyRstripSlash host ++ "/trace/" ++ tid) ∧
    (∀ h, get_trace_url_from_span h ⟨some ""⟩ = none) ∧
    (∀ t, get_trace_url_from_span "" ⟨some t⟩ = none) := by
  refine ⟨?_, ?_, ?_⟩
  · show (if tid ≠ "" ∧ host ≠ "" then some (pyRstripSlash host ++ "/trace/" ++ tid)
        else none) = some (pyRstripSlash host ++ "/trace/" ++ tid)
    rw [if_pos ⟨htid, hhost⟩]
  · intro h
    show (if ("" : String) ≠ "" ∧ h ≠ "" then some (pyRstripSlash h ++ "/trace/" ++ "")
        else none) = none
    rw [if_neg (fun hc => hc.1 rfl)]
  · intro t
    show (if t ≠ "" ∧ ("" : String) ≠ "" then some (pyRstripSlash "" ++ "/trace/" ++ t)
        else none) = none
    rw [if_neg (fun hc => hc.2 rfl)]

/-- C9 witness: concrete host with a trailing slash and concrete trace id. -/
theorem c9_witness :
    get_trace_url_from_span "https://cloud.langfuse.com/" ⟨some "abc123"⟩
        = some "https://cloud.langfuse.com/trace/abc123" ∧
    get_trace_url_from_span "https://cloud.langfuse.com" ⟨some ""⟩ = none ∧
    get_trace_url_from_span "" ⟨some "abc123"⟩ = none :=
  ⟨(c9_trace_url "https://cloud.langfuse.com/" "abc123" (by decide) (by decide)).1,
   (c9_trace_url "https://cloud.langfuse.com/" "abc123" (by decide) (by decide)).2.1
     "https://cloud.langfuse.com",
   (c9_trace_url "https://cloud.langfuse.com/" "abc123" (by decide) (by decide)).2.2
     "abc123"⟩

/-- C7: when the Dispatcher call of `read_athena_query` returns a non-error
mapping, the start status event's description is the fixed prefix followed by
the query preview (hence contains the preview), the terminal status event's
description embeds `returned <n> rows` where `<n>` renders the mapping's
`row_count` value when present and `unknown` otherwise, and the operation
returns the Dispatcher's mapping unchanged. -/
theorem c7_athena_success (query : String) (tr : Transport) (v : Valves)
    (res : JValue)
    (hres : (_make_api_request_auth tr "POST" "/engineer/read-athena-query"
      (some (JValue.obj [("query", JValue.str query)])) v).1 = res)
    (hobj : res.isObj = true) (herr : isErrorDict res = false) :
    (runTool (ToolCall.read_athena_query query) tr v okSink).result
        = PyResult.ok res ∧
    (runTool (ToolCall.read_athena_query query) tr v okSink).events
      = [Event.status ⟨"status",
           "🔍 Executing Athena query: " ++ query_preview query, false, false⟩,
         Event.status ⟨"status",
           "✅ Athena query completed - returned "
             ++ pyStr (res.getD "row_count" (JValue.str "unknown")) ++ " rows",
           true, false⟩] := by
  constructor
  · show PyResult.ok (_make_api_request_auth tr "POST" "/engineer/read-athena-query"
      (some (JValue.obj [("query", JValue.str query)])) v).1 = PyResult.ok res
    rw [hres]
  · show _emit_event okSink "status"
        ("🔍 Executing Athena query: " ++ query_preview query) false ++
        (if isErrorDict (_make_api_request_auth tr "POST" "/engineer/read-athena-query"
            (some (JValue.obj [("query", JValue.str query)])) v).1 then _ else _) = _
    rw [hres, herr]
    simp [emit_event_okSink, hobj]

/-- C7 witness: the claim's concrete scenario — a mocked transport returning
`{"data": [...], "row_count": 3}` yields a start event holding the query
preview, a terminal event holding "returned 3 rows", and the mapping is
returned unchanged. -/
theorem c7_witness :
    (runTool (ToolCall.read_athena_query "SELECT 1") sampleAthenaTransport
        ⟨"k"⟩ okSink).result = PyResult.ok sampleAthenaResponse ∧
    (runTool (ToolCall.read_athena_query "SELECT 1") sampleAthenaTransport
        ⟨"k"⟩ okSink).events
      = [Event.status ⟨"status", "🔍 Executing Athena query: SELECT 1", false, false⟩,
         Event.status ⟨"status", "✅ Athena query completed - returned 3 rows",
           true, false⟩] :=
  c7_athena_success "SELECT 1" sampleAthenaTransport ⟨"k"⟩ sampleAthenaResponse
    rfl rfl rfl

/-- C8 counterexample: a non-configuration error surfaced by raising — with no
sink at all, `get_athena_table_info` raises `TypeError` when the success
mapping's `columns` value has no Python length, so the configuration error is
not "the only error in the system surfaced by raising rather than as an
error-shaped value", and the claim as stated is false. -/
theorem c8_counterexample :
    (runTool (ToolCall.get_athena_table_info "db.events")
        (fun _ => TransportResult.success (JValue.obj [("columns", JValue.null)]))
        ⟨"k"⟩ none).result
      = PyResult.exn "TypeError" "object of type \x27NoneType\x27 has no len()" := rfl

/-- C8 (amended): whenever a required tracing key is absent (with the module's
initial empty client cache), `get_langfuse_client` — and therefore
`get_prompt`, which calls it — raises `ValueError` rather than returning a
value, and no client instance is created (the cache stays empty, so every
later call raises too); the Dispatcher with a non-null valves object never
raises.  Raising is however not unique to the configuration error: the
Dispatcher with null valves raises `AttributeError`, and
`get_athena_table_info` raises `TypeError` on a `columns` value without a
length (see the counterexample). -/
theorem c8_config_error_raises (cfg : LangfuseConfig)
    (promptCompile : LangfuseClient → String → String) (prompt_name : String)
    (hmiss : cfg.secret_key = "" ∨ cfg.public_key = "") :
    (get_langfuse_client cfg none).1
        = PyResult.exn "ValueError" langfuseMissingKeysMsg ∧
    (get_langfuse_client cfg none).2 = none ∧
    (get_prompt promptCompile cfg none prompt_name).1
        = PyResult.exn "ValueError" langfuseMissingKeysMsg ∧
    (∀ (tr : Transport) (m e : String) (d : Option JValue) (v : Valves),
      ∃ j, (_make_api_request tr m e d (some v)).1 = PyResult.ok j) := by
  have hcl : get_langfuse_client cfg none
      = (PyResult.exn "ValueError" langfuseMissingKeysMsg, none) := by
    unfold get_langfuse_client
    rw [if_pos hmiss]
  refine ⟨by rw [hcl], by rw [hcl], ?_, ?_⟩
  · unfold get_prompt
    rw [hcl]
  · intro tr m e d v
    exact ⟨(_make_api_request_auth tr m e d v).1, rfl⟩

/-- C8 witness: a configuration with an empty secret key makes `get_prompt`
raise the configuration `ValueError`. -/
theorem c8_witness :
    (get_prompt (fun _ _ => "compiled") ⟨"", "pub", "https://lf"⟩ none "greeting").1
      = PyResult.exn "ValueError" langfuseMissingKeysMsg :=
  (c8_config_error_raises ⟨"", "pub", "https://lf"⟩ (fun _ _ => "compiled") "greeting"
    (Or.inl rfl)).2.2.1

theorem statusDones_normal (d1 d2 : String) (cites : List Event)
    (hall : allCitations cites = true) :
    statusDones (Event.status ⟨"status", d1, false, false⟩ ::
      Event.status ⟨"status", d2, true, false⟩ :: cites) = [false, true] := by
  unfold statusDones
  have h1 : statusEvents (Event.status ⟨"status", d1, false, false⟩ ::
      Event.status ⟨"status", d2, true, false⟩ :: cites)
      = ⟨"status", d1, false, false⟩ :: ⟨"status", d2, true, false⟩
          :: statusEvents cites := rfl
  rw [h1, statusEvents_of_allCitations cites hall]
  rfl

/-- C1 counterexample: `get_athena_table_info` against a mocked transport
returning the success-shaped mapping `{"columns": 3}`, with a non-null sink
whose emissions all succeed, delivers only the start status event (done
flags `[false]`, not `[false, true]`) — `len(result.get("columns", []))`
raises `TypeError` before the terminal emission — so the claim as stated is
false at this invocation. -/
theorem c1_counterexample :
    statusDones (runTool (ToolCall.get_athena_table_info "db.table")
        (fun _ => TransportResult.success (JValue.obj [("columns", JValue.num 3)]))
        ⟨"key"⟩ okSink).events = [false] ∧
    statusDones (runTool (ToolCall.get_athena_table_info "db.table")
        (fun _ => TransportResult.success (JValue.obj [("columns", JValue.num 3)]))
        ⟨"key"⟩ okSink).events ≠ [false, true] ∧
    (runTool (ToolCall.get_athena_table_info "db.table")
        (fun _ => TransportResult.success (JValue.obj [("columns", JValue.num 3)]))
        ⟨"key"⟩ okSink).result
      = PyResult.exn "TypeError" "object of type \x27int\x27 has no len()" :=
  ⟨rfl, by decide, rfl⟩

/-- C1 (amended): every tool operation invoked with a non-null sink whose
emissions succeed emits exactly one start status event (done=false) followed
by exactly one terminal status event (done=true), whatever the Dispatcher's
Response — except `get_athena_table_info`, which, when the Response is a
non-error mapping whose `columns` value has no Python length, raises
`TypeError` after the start event and emits no terminal event. -/
theorem c1_status_event_protocol (c : ToolCall) (tr : Transport) (v : Valves) :
    statusDones (runTool c tr v okSink).events = [false, true] ∨
    ((∃ t, c = ToolCall.get_athena_table_info t) ∧
      statusDones (runTool c tr v okSink).events = [false] ∧
      ∃ m, (runTool c tr v okSink).result = PyResult.exn "TypeError" m) := by
  rcases runTool_spec_ok c tr v with hN | ⟨hc, hE⟩
  · left
    obtain ⟨res, d1, d2, cites, _, hev, hall, _, _⟩ := hN
    rw [hev]
    exact statusDones_normal d1 d2 cites hall
  · right
    obtain ⟨d1, m, hres, hev⟩ := hE
    exact ⟨hc, by rw [hev]; rfl, ⟨m, hres⟩⟩

theorem table_info_finish_result (t : String) (dres : JValue × List HttpRequest)
    (s1 s2 : Sink) :
    (table_info_finish s1 t dres).result = (table_info_finish s2 t dres).result := by
  unfold table_info_finish
  by_cases h : isErrorDict dres.1 = true
  · rw [if_pos h, if_pos h]
  · rw [if_neg h, if_neg h]
    cases columns_count dres.1 <;> rfl

/-- C4 counterexample: in the run where every sink emission raises,
`get_athena_table_info` against a Response whose `columns` value is a boolean
lets a `TypeError` escape the tool operation — contradicting the claim's "in
the raising run no exception escapes the Tool Operation". -/
theorem c4_counterexample :
    (runTool (ToolCall.get_athena_table_info "db.users")
        (fun _ => TransportResult.success (JValue.obj [("columns", JValue.bool true)]))
        ⟨"k"⟩ raisingSink).result
      = PyResult.exn "TypeError" "object of type \x27bool\x27 has no len()" := rfl

/-- C4 (amended): for every tool operation, fixing the inputs and the
Dispatcher's Response, the operation's outcome — the returned value, or the
exception it raises — is identical for every sink behaviour: a sink whose
emissions all raise, one whose emissions succeed, or no sink at all.  Sink
emission failures are discarded and never escape; the only escaping
exception, `get_athena_table_info`'s `TypeError` on a `columns` value without
a length, occurs identically whatever the sink does. -/
theorem c4_sink_isolation (c : ToolCall) (tr : Transport) (v : Valves)
    (s1 s2 : Sink) :
    (runTool c tr v s1).result = (runTool c tr v s2).result := by
  cases c
  case get_athena_table_info t => exact table_info_finish_result t _ s1 s2
  all_goals rfl

/-- C5: for every tool operation invocation (succeeding sink), citation
events are never delivered on an error-shaped Response; when any citation
event is delivered the Response returned to the host is a non-error sequence
or mapping (the shapes whose items the quote fields are extracted from, with
empty-string defaults); and the trace is all status events — start then
terminal — followed by all citation events, so every citation comes after the
terminal status event and before the operation returns. -/
theorem c5_citation_discipline (c : ToolCall) (tr : Transport) (v : Valves) :
    (∀ res, (runTool c tr v okSink).result = PyResult.ok res →
      isErrorDict res = true →
      citationEvents (runTool c tr v okSink).events = []) ∧
    (citationEvents (runTool c tr v okSink).events ≠ [] →
      ∃ res, (runTool c tr v okSink).result = PyResult.ok res ∧
        isErrorDict res = false ∧ (res.isArr = true ∨ res.isObj = true)) ∧
    (runTool c tr v okSink).events
      = (statusEvents (runTool c tr v okSink).events).map Event.status
        ++ (citationEvents (runTool c tr v okSink).events).map Event.citation := by
  rcases runTool_spec_ok c tr v with hN | ⟨_, hE⟩
  · obtain ⟨res, d1, d2, cites, hres, hev, hall, herrc, hsh⟩ := hN
    have hciteev : citationEvents (runTool c tr v okSink).events
        = citationEvents cites := by rw [hev]; rfl
    have hstatev : statusEvents (runTool c tr v okSink).events
        = ⟨"status", d1, false, false⟩ :: ⟨"status", d2, true, false⟩
            :: statusEvents cites := by rw [hev]; rfl
    refine ⟨?_, ?_, ?_⟩
    · intro res2 hres2 herr2
      rw [hres] at hres2
      injection hres2 with hr
      subst hr
      rw [hciteev, herrc herr2]
      rfl
    · intro hne
      rw [hciteev] at hne
      have hcne : cites ≠ [] := by
        intro hc
        rw [hc] at hne
        exact hne rfl
      have herrf : isErrorDict res = false := by
        cases herr : isErrorDict res
        · rfl
        · exact absurd (herrc herr) hcne
      exact ⟨res, hres, herrf, hsh hcne⟩
    · rw [hstatev, hciteev, hev, statusEvents_of_allCitations cites hall]
      simp only [List.map_cons, List.map_nil, List.cons_append, List.nil_append]
      rw [citationEvents_map_of_allCitations cites hall]
  · obtain ⟨d1, m, hres, hev⟩ := hE
    refine ⟨?_, ?_, ?_⟩
    · intro res2 hres2 _
      rw [hres] at hres2
      cases hres2
    · intro hne
      rw [hev] at hne
      exact absurd rfl hne
    · rw [hev]
      rfl

/-- C5 witness: a transport failure produces an error-shaped Response from
the Dispatcher, and the theorem yields that `semantic_search_transcripts`
then delivers zero citation events. -/
theorem c5_witness :
    citationEvents (runTool (ToolCall.semantic_search_transcripts "ai" "balanced"
        "30" none none none none none true) failingTransport ⟨"k"⟩ okSink).events
      = [] :=
  (c5_citation_discipline (ToolCall.semantic_search_transcripts "ai" "balanced"
      "30" none none none none none true) failingTransport ⟨"k"⟩).1
    (JValue.obj [("error", JValue.str "API request failed: boom")]) rfl rfl

theorem citationEvents_emit_event (s : Sink) (t d : String) (dn : Bool) :
    citationEvents (_emit_event s t d dn) = [] := by
  cases s with
  | none => rfl
  | some deliver =>
      simp only [_emit_event]
      split <;> rfl

theorem citationEvents_citation_cons (ce : CitationEvent) (l : List Event) :
    citationEvents (Event.citation ce :: l) = ce :: citationEvents l := rfl

theorem citationEvents_nil : citationEvents [] = [] := rfl

theorem citationEvents_transcriptCites (res : JValue) :
    citationEvents (transcriptCites okSink res) = transcriptCiteList res := by
  cases res with
  | arr items =>
      show citationEvents (citeLoop _ items)
        = (items.filter (fun i => i.isObj)).map _
      induction items with
      | nil => rfl
      | cons x xs ih =>
          simp only [citeLoop, citationEvents_append, List.filter_cons]
          by_cases hx : x.isObj = true
          · rw [if_pos hx, if_pos hx, emit_citation_okSink,
              citationEvents_citation_cons, citationEvents_nil, ih, List.map_cons]
            rfl
          · rw [if_neg hx, if_neg hx, citationEvents_nil, ih]
            rfl
  | str s => rfl
  | num n => rfl
  | bool b => rfl
  | null => rfl
  | obj fs => rfl

theorem citationEvents_detailCites (res : JValue) :
    citationEvents (detailCites okSink res) = detailCiteList res := by
  unfold detailCites detailCiteList
  by_cases h : res.isObj = true
  · rw [if_pos h, if_pos h, emit_citation_okSink]
    rfl
  · rw [if_neg h, if_neg h]
    rfl

theorem run_post_response (tr : Transport) (endpoint : String) (data : Option JValue)
    (v : Valves) (res : JValue)
    (htr : ∀ req, tr req = TransportResult.success res) :
    (_make_api_request_auth tr "POST" endpoint data v).1 = res := by
  rw [make_auth_post tr "POST" endpoint data v rfl]
  show responseFor (tr _) = res
  rw [htr]
  rfl

theorem citationEvents_pattern (startDesc : String)
    (dres : JValue × List HttpRequest) (errDesc okDesc : JValue → String)
    (citesOf : Sink → JValue → List Event)
    (herr : isErrorDict dres.1 = false) :
    citationEvents (runToolPattern okSink startDesc dres errDesc okDesc citesOf).events
      = citationEvents (citesOf okSink dres.1) := by
  have h2 : ¬ (isErrorDict dres.1 = true) := by
    rw [herr]
    exact Bool.false_ne_true
  unfold runToolPattern
  rw [if_neg h2, citationEvents_append, citationEvents_append,
    citationEvents_emit_event, citationEvents_emit_event]
  rfl

/-- C10: for the transcript operations, the citation events delivered on a
non-error Response are exactly one per mapping item (`semantic_search_transcripts`
and `keyword_search_transcripts`, over a sequence Response) or one for a
mapping Response (`get_transcript_details`), with `quotes` and `citation`
fields read with empty-string defaults — so an item lacking them still yields
a citation with empty content and/or title — and every such citation carries
the constant source URL `https://levelvc.com` regardless of the Response's
contents. -/
theorem c10_citation_fields (tr : Transport) (v : Valves) (res : JValue)
    (htr : ∀ req, tr req = TransportResult.success res)
    (herr : isErrorDict res = false) :
    (∀ (q st li : String) (sy y qu mi ma : Option String) (eqq : Bool),
      citationEvents (runTool (ToolCall.semantic_search_transcripts q st li sy y qu
        mi ma eqq) tr v okSink).events = transcriptCiteList res) ∧
    (∀ (kw li : String) (sy y qu mi ma : Option String) (mt : String) (eqq : Bool),
      citationEvents (runTool (ToolCall.keyword_search_transcripts kw li sy y qu
        mi ma mt eqq) tr v okSink).events = transcriptCiteList res) ∧
    (∀ (sym yr qtr : String),
      citationEvents (runTool (ToolCall.get_transcript_details sym yr qtr)
        tr v okSink).events = detailCiteList res) ∧
    (∀ ce ∈ transcriptCiteList res, ce.url = JValue.str "https://levelvc.com") ∧
    (∀ ce ∈ detailCiteList res, ce.url = JValue.str "https://levelvc.com") := by
  refine ⟨?_, ?_, ?_, ?_, ?_⟩
  · intro q st li sy y qu mi ma eqq
    refine Eq.trans (citationEvents_pattern _ _ _ _ transcriptCites ?_) ?_
    · rw [run_post_response tr _ _ v res htr]
      exact herr
    · rw [run_post_response tr _ _ v res htr, citationEvents_transcriptCites]
  · intro kw li sy y qu mi ma mt eqq
    refine Eq.trans (citationEvents_pattern _ _ _ _ transcriptCites ?_) ?_
    · rw [run_post_response tr _ _ v res htr]
      exact herr
    · rw [run_post_response tr _ _ v res htr, citationEvents_transcriptCites]
  · intro sym yr qtr
    refine Eq.trans (citationEvents_pattern _ _ _ _ detailCites ?_) ?_
    · rw [run_post_response tr _ _ v res htr]
      exact herr
    · rw [run_post_response tr _ _ v res htr, citationEvents_detailCites]
  · intro ce hce
    cases res with
    | arr items =>
        simp only [transcriptCiteList, List.mem_map] at hce
        obtain ⟨a, _, rfl⟩ := hce
        rfl
    | str s => simp [transcriptCiteList] at hce
    | num n => simp [transcriptCiteList] at hce
    | bool b => simp [transcriptCiteList] at hce
    | null => simp [transcriptCiteList] at hce
    | obj fs => simp [transcriptCiteList] at hce
  · intro ce hce
    by_cases h : res.isObj = true
    · unfold detailCiteList at hce
      rw [if_pos h] at hce
      cases hce with
      | head => rfl
      | tail _ htl => cases htl
    · unfold detailCiteList at hce
      rw [if_neg h] at hce
      cases hce

/-- C10 witness: a Response list holding one empty mapping (no `quotes`, no
`citation` field) still yields exactly one citation, with empty content,
empty title and the constant source URL. -/
theorem c10_witness :
    citationEvents (runTool (ToolCall.semantic_search_transcripts "ai" "balanced"
        "30" none none none none none true) emptyItemTransport ⟨"k"⟩ okSink).events
      = [⟨[JValue.str ""], JValue.str "", JValue.str "https://levelvc.com"⟩] :=
  (c10_citation_fields emptyItemTransport ⟨"k"⟩ (JValue.arr [JValue.obj []])
    (fun _ => rfl) rfl).1 "ai" "balanced" "30" none none none none none true
